import Mathlib

/-!
Verification model of `inclined_simulation_pyscript.py`, an inclined-plane
velocity simulation (pygame).  The simulation state, the per-tick kinematics
update, the controller state machine and the graph-overlay sampling are
embedded as Lean definitions; numeric literals of the Python source are
modelled as exact rationals and the trigonometric constants for the fixed
30-degree incline by their exact values (sin 30 = 1/2, cos 30 = sqrt 3 / 2).
Screen x-coordinates, which involve cos 30, live in the type `Q3` of numbers
a + b * sqrt 3 with rational a, b; since sqrt 3 is irrational this
representation is unique, so equality of `Q3` values coincides with equality
of the real coordinates they denote.
-/

/-- `WINDOW_WIDTH, WINDOW_HEIGHT = 1024, 768`. -/
def WINDOW_WIDTH : ℚ := 1024
def WINDOW_HEIGHT : ℚ := 768
/-- `LEFT_PANEL_WIDTH = 600`. -/
def LEFT_PANEL_WIDTH : ℚ := 600
/-- `RIGHT_PANEL_WIDTH = WINDOW_WIDTH - LEFT_PANEL_WIDTH`. -/
def RIGHT_PANEL_WIDTH : ℚ := WINDOW_WIDTH - LEFT_PANEL_WIDTH
/-- `FPS = 60`; the main loop ticks the controller with `dt = 1.0 / FPS`. -/
def FPS : ℚ := 60
/-- `G = 9.8`, gravity in m/s^2. -/
def G : ℚ := 49/5
/-- `SIN_THETA = math.sin(THETA)` for `THETA = math.radians(30)`:
exactly 1/2. -/
def SIN_THETA : ℚ := 1/2
/-- `A = G * SIN_THETA`, the acceleration along the incline (4.9 m/s^2). -/
def A : ℚ := G * SIN_THETA
/-- `L_PHYSICAL_MAX = 2.5`, max plane length in meters. -/
def L_PHYSICAL_MAX : ℚ := 5/2
/-- `L_PIXEL_MAX = 400`, max plane length in pixels. -/
def L_PIXEL_MAX : ℚ := 400

/-- `HEIGHTS = [0.25, 0.50, 0.75, 1.00, 1.25]` (meters). -/
def HEIGHTS : List ℚ := [1/4, 1/2, 3/4, 1, 5/4]
/-- `PLANE_LENGTHS = [0.50, 1.00, 1.50, 2.00, 2.50]` (meters). -/
def PLANE_LENGTHS : List ℚ := [1/2, 1, 3/2, 2, 5/2]
/-- `EXP_AVG_SPEEDS = [1.11, 1.0, 1.5, 2.0, 2.5]` (m/s). -/
def EXP_AVG_SPEEDS : List ℚ := [111/100, 1, 3/2, 2, 5/2]
/-- `EXP_STD_DEVS = [0.03, 0.04, 0.03, 0.03, 0.04]` (m/s). -/
def EXP_STD_DEVS : List ℚ := [3/100, 1/25, 3/100, 3/100, 1/25]

/-- Numbers of the form `a + b * sqrt 3` with rational `a`, `b`; used for
screen x-coordinates, which are rational combinations of
`COS_THETA = cos 30 = sqrt 3 / 2`. -/
structure Q3 where
  a : ℚ
  b : ℚ
deriving DecidableEq, Repr

/-- Addition on `Q3` (componentwise, as for `a + b * sqrt 3`). -/
def Q3.add (p q : Q3) : Q3 := ⟨p.a + q.a, p.b + q.b⟩

/-- Scaling a `Q3` number by a rational. -/
def Q3.smul (c : ℚ) (p : Q3) : Q3 := ⟨c * p.a, c * p.b⟩

/-- `COS_THETA = math.cos(THETA)`: exactly `sqrt 3 / 2`, i.e. `0 + (1/2) * sqrt 3`. -/
def COS_THETA : Q3 := ⟨0, 1/2⟩

/-- The state of `InclineScene`: block position in pixels (x-coordinate in
`Q3`, y-coordinate rational), elapsed time `t`, displacement `s`, selected
plane length `L`.  The scene is constructed once as
`InclineScene(0, 100, LEFT_PANEL_WIDTH, WINDOW_HEIGHT - 100)`, so its
rect has left 0 and bottom 768, and
`incline_start = (rect.left + 50, rect.bottom - 50) = (50, 718)`. -/
structure InclineScene where
  block_pos : Q3 × ℚ
  t : ℚ
  s : ℚ
  L : ℚ
deriving DecidableEq, Repr

/-- `self.incline_start = (self.rect.left + 50, self.rect.bottom - 50)`
for the scene rect `(0, 100, 600, 668)`: the point `(50, 718)`. -/
def incline_start : Q3 × ℚ := (⟨50, 0⟩, 718)

/-- `InclineScene.__init__`: block at the incline start, `t = 0`, `s = 0`,
`L = PLANE_LENGTHS[0]`. -/
def InclineScene.init : InclineScene :=
  { block_pos := incline_start, t := 0, s := 0, L := PLANE_LENGTHS.getD 0 0 }

/-- `InclineScene.reset`: block back to the incline start, `t = 0`, `s = 0`;
`L` is untouched. -/
def InclineScene.reset (sc : InclineScene) : InclineScene :=
  { sc with block_pos := incline_start, t := 0, s := 0 }

/-- `InclineScene.set_height(h)`: `idx = HEIGHTS.index(h)`,
`L = PLANE_LENGTHS[idx]`, then `reset()`.  Python `list.index` raises for a
value not in the list; every call site passes one of the five preset heights,
for which `List.indexOf` agrees with Python (the `getD` default 0 is
unreachable there). -/
def InclineScene.set_height (h : ℚ) (sc : InclineScene) : InclineScene :=
  let idx := HEIGHTS.indexOf h
  InclineScene.reset { sc with L := PLANE_LENGTHS.getD idx 0 }

/-- `InclineScene.update(dt)` (source lines 150-160): if `s < L`, advance
`t` by `dt`, recompute `s = 0.5 * A * t ** 2`, clamp `s` to `L`, and move the
block to `incline_start + pixel_s * (COS_THETA, -SIN_THETA)` where
`pixel_s = (s / L_PHYSICAL_MAX) * L_PIXEL_MAX`; always return
`(self.s, A * self.t)` (the updated values when the branch ran). -/
def InclineScene.update (dt : ℚ) (sc : InclineScene) : InclineScene × (ℚ × ℚ) :=
  if sc.s < sc.L then
    let t := sc.t + dt
    let s0 := 1/2 * A * t ^ 2
    let s := if s0 > sc.L then sc.L else s0
    let pixel_s := (s / L_PHYSICAL_MAX) * L_PIXEL_MAX
    let delta_x : Q3 := Q3.smul pixel_s COS_THETA
    let delta_y : ℚ := pixel_s * SIN_THETA
    ({ sc with t := t, s := s,
               block_pos := (Q3.add incline_start.1 delta_x, incline_start.2 - delta_y) },
     (s, A * t))
  else
    (sc, (sc.s, A * sc.t))

/-- Mean of a list of rationals (as used by `scipy.stats.linregress`). -/
def listMean (xs : List ℚ) : ℚ := xs.sum / xs.length

/-- `scipy.stats.linregress(x, y)`, restricted to the fields the program
keeps: ordinary least squares gives `slope = sxy / sxx` and
`intercept = ym - slope * xm`; the program stores `r_value ** 2`, which
equals `sxy ^ 2 / (sxx * syy)` (the Pearson `r_value` itself is a square
root and is never stored, only squared). -/
def linregress (xs ys : List ℚ) : ℚ × ℚ × ℚ :=
  let xm := listMean xs
  let ym := listMean ys
  let sxx := (xs.map fun x => (x - xm) ^ 2).sum
  let syy := (ys.map fun y => (y - ym) ^ 2).sum
  let sxy := (List.zipWith (fun x y => (x - xm) * (y - ym)) xs ys).sum
  let slope := sxy / sxx
  (slope, ym - slope * xm, sxy ^ 2 / (sxx * syy))

/-- Source line 240:
`measured_v = self.scene.L / actual_time if actual_time > 0 else 0`. -/
def measuredSpeed (L actual_time : ℚ) : ℚ :=
  if actual_time > 0 then L / actual_time else 0

/-- The fit results stored on a completed run (source lines 251-254):
the linear `(slope, intercept, r_value ** 2)` and the power-law
`(A_fit, p)` pair returned by `scipy.optimize.curve_fit`.  The power-law
pair is the output of an iterative floating-point solver on the fixed
5-point dataset; it is carried as an abstract value (a parameter of
`SimulationController.update`), never inspected by the program logic. -/
structure FitResults where
  linear : ℚ × ℚ × ℚ
  power : ℚ × ℚ
deriving DecidableEq, Repr

/-- The state of `SimulationController` (and of the `GraphPlot` and start
button it owns): selected height, running/paused flags, the scene, the
graph's `(s, v)` sample list, the start button's label, the fit results
(`None` until a run completes) and the match verdict string. -/
structure SimulationController where
  selected_height : ℚ
  running : Bool
  paused : Bool
  scene : InclineScene
  points : List (ℚ × ℚ)
  start_text : String
  fit_results : Option FitResults
  match_status : String
deriving DecidableEq, Repr

/-- `SimulationController.__init__`: height `HEIGHTS[0]`, not running, not
paused, fresh scene, empty graph, start button labelled "Start", no fit
results, empty match status. -/
def SimulationController.init : SimulationController :=
  { selected_height := HEIGHTS.getD 0 0
    running := false
    paused := false
    scene := InclineScene.init
    points := []
    start_text := "Start"
    fit_results := none
    match_status := "" }

/-- A click on height-preset button `i` (source lines 203-212).  The button
text is `f"h = {h} m"` for `h = HEIGHTS[i]` and is parsed back with
`float(btn.text.split('=')[1].strip().split()[0])`, which recovers exactly
`HEIGHTS[i]`; then the scene's height is set and the controller returns to
idle with trace, fit results and match status cleared. -/
def SimulationController.selectHeight (i : Fin 5) (c : SimulationController) :
    SimulationController :=
  let h := HEIGHTS.getD i 0
  { c with selected_height := h
           scene := c.scene.set_height h
           running := false
           paused := false
           start_text := "Start"
           points := []
           fit_results := none
           match_status := "" }

/-- A click on the start button (source lines 213-220): idle starts a run
(label "Pause"); otherwise the pause flag is toggled (label "Resume" while
paused, "Pause" while running). -/
def SimulationController.startPause (c : SimulationController) :
    SimulationController :=
  if !c.running then
    { c with running := true, paused := false, start_text := "Pause" }
  else
    let p := !c.paused
    { c with paused := p, start_text := if p then "Resume" else "Pause" }

/-- A click on the reset button (source lines 221-228): scene reset,
controller idle, label "Start", trace, fit results and match status
cleared. -/
def SimulationController.resetClick (c : SimulationController) :
    SimulationController :=
  { c with scene := c.scene.reset
           running := false
           paused := false
           start_text := "Start"
           points := []
           fit_results := none
           match_status := "" }

/-- `SimulationController.update(dt)` (source lines 231-254): while running
and unpaused, tick the scene, append the returned `(s, v)` sample to the
graph, and if `s >= self.scene.L` finish the run: back to idle, compute the
measured average speed, set the match verdict by comparing with the
experimental mean and standard deviation at the selected height's index,
and store fresh fit results.  `powFit` is the `(A_fit, p)` pair produced by
`scipy.optimize.curve_fit` on the fixed dataset (see `FitResults`). -/
def SimulationController.update (powFit : ℚ × ℚ) (dt : ℚ)
    (c : SimulationController) : SimulationController :=
  if c.running && !c.paused then
    let su := c.scene.update dt
    let scene1 := su.1
    let s := su.2.1
    let c1 := { c with scene := scene1, points := c.points ++ [su.2] }
    if s ≥ scene1.L then
      let idx := HEIGHTS.indexOf c.selected_height
      let actual_time := scene1.t
      let measured_v := measuredSpeed scene1.L actual_time
      let exp_v := EXP_AVG_SPEEDS.getD idx 0
      let exp_sd := EXP_STD_DEVS.getD idx 0
      { c1 with running := false
                start_text := "Start"
                match_status := if |measured_v - exp_v| ≤ exp_sd then "Success"
                                else "Deviation"
                fit_results := some { linear := linregress HEIGHTS EXP_AVG_SPEEDS
                                      power := powFit } }
    else c1
  else c

/-- The graph is constructed as
`GraphPlot(LEFT_PANEL_WIDTH + 20, 400, RIGHT_PANEL_WIDTH - 40, 200)`:
rect left `620`. -/
def graph_left : ℚ := LEFT_PANEL_WIDTH + 20

/-- Graph rect top `400`. -/
def graph_top : ℚ := 400

/-- Graph rect width `RIGHT_PANEL_WIDTH - 40 = 384`. -/
def graph_width : ℚ := RIGHT_PANEL_WIDTH - 40

/-- Graph rect height `200`. -/
def graph_height : ℚ := 200

/-- Graph rect bottom `400 + 200 = 600`. -/
def graph_bottom : ℚ := graph_top + graph_height

/-- `max_s = PLANE_LENGTHS[-1]` in `GraphPlot.draw` (source line 85). -/
def max_s : ℚ := PLANE_LENGTHS.getLastD 0

/-- `max_v = 4.0` in `GraphPlot.draw` (source line 86). -/
def max_v : ℚ := 4

/-- The x pixel coordinate used throughout `GraphPlot.draw`:
`self.rect.left + 20 + (s / max_s) * (self.rect.width - 40)`. -/
def plotX (s : ℚ) : ℚ := graph_left + 20 + (s / max_s) * (graph_width - 40)

/-- The y pixel coordinate used throughout `GraphPlot.draw`:
`self.rect.bottom - 20 - (v / max_v) * (self.rect.height - 40)`. -/
def plotY (v : ℚ) : ℚ := graph_bottom - 20 - (v / max_v) * (graph_height - 40)

/-- The samples the scatter loop of `GraphPlot.draw` actually draws
(source lines 87-92): `for s, v in self.points: if s > max_s: continue`. -/
def keptSamples (points : List (ℚ × ℚ)) : List (ℚ × ℚ) :=
  points.filter fun pv => !(pv.1 > max_s)

/-- The scatter pixels drawn for the kept samples (source lines 90-92;
the final `int()` truncation of `pygame.draw.circle` is left out, the claim
under study being about which samples are drawn). -/
def scatterPixels (points : List (ℚ × ℚ)) : List (ℚ × ℚ) :=
  (keptSamples points).map fun pv => (plotX pv.1, plotY pv.2)

/-- `x_vals = np.linspace(0, max_s, 100)` (source line 100): the i-th of
100 sample positions is `0 + i * (max_s - 0) / (100 - 1)`. -/
def x_vals (i : Fin 100) : ℚ := (i : ℕ) * (max_s / 99)

/-- `v_linear = slope * (x_vals / 2) + intercept` (source line 101). -/
def v_linear (slope intercept : ℚ) (i : Fin 100) : ℚ :=
  slope * (x_vals i / 2) + intercept

/-- The i-th green polyline segment of the linear-fit overlay (source lines
102-107): endpoints at consecutive sample positions. -/
def linearSegment (slope intercept : ℚ) (i : Fin 99) : (ℚ × ℚ) × (ℚ × ℚ) :=
  ((plotX (x_vals i.castSucc), plotY (v_linear slope intercept i.castSucc)),
   (plotX (x_vals i.succ), plotY (v_linear slope intercept i.succ)))

/-- `power_law(h, A_fit, p) = A_fit * h ** p` (source lines 109-110), on
reals since the fitted exponent `p` need not be an integer. -/
noncomputable def power_law (h A_fit p : ℝ) : ℝ := A_fit * h ^ p

/-- `v_power = power_law(x_vals / 2, A_fit, p)` (source line 113). -/
noncomputable def v_power (A_fit p : ℝ) (i : Fin 100) : ℝ :=
  power_law ((x_vals i : ℝ) / 2) A_fit p

/-- `plotY` over the reals, for the power-fit overlay. -/
noncomputable def plotYR (v : ℝ) : ℝ :=
  (graph_bottom : ℝ) - 20 - (v / (max_v : ℝ)) * ((graph_height : ℝ) - 40)

/-- The i-th yellow polyline segment of the power-fit overlay (source lines
114-119). -/
noncomputable def powerSegment (A_fit p : ℝ) (i : Fin 99) : (ℝ × ℝ) × (ℝ × ℝ) :=
  (((plotX (x_vals i.castSucc) : ℝ), plotYR (v_power A_fit p i.castSucc)),
   ((plotX (x_vals i.succ) : ℝ), plotYR (v_power A_fit p i.succ)))

/-- The scene states reachable in the program: the initial scene, and then
any interleaving of main-loop ticks (`update(1.0 / FPS)`, i.e. `dt = 1/60`),
reset-button resets, and height-preset selections. -/
inductive ReachableScene : InclineScene → Prop
  | init : ReachableScene InclineScene.init
  | tick (sc : InclineScene) (h : ReachableScene sc) :
      ReachableScene (sc.update (1/60)).1
  | reset (sc : InclineScene) (h : ReachableScene sc) :
      ReachableScene sc.reset
  | height (sc : InclineScene) (i : Fin 5) (h : ReachableScene sc) :
      ReachableScene (sc.set_height (HEIGHTS.getD i 0))

/-- The scene invariant: time and displacement are nonnegative, the
displacement is clamped to the positive plane length, and the displacement
is either exactly the kinematic value `0.5 * A * t ^ 2` or the clamp of a
kinematic value that has already overshot the plane length. -/
def SceneInv (sc : InclineScene) : Prop :=
  0 ≤ sc.t ∧ 0 ≤ sc.s ∧ sc.s ≤ sc.L ∧ 0 < sc.L ∧
    (sc.s = 1/2 * A * sc.t ^ 2 ∨ (sc.s = sc.L ∧ sc.L ≤ 1/2 * A * sc.t ^ 2))

/-- `n` main-loop ticks of the scene (`update` with `dt = 1.0 / FPS`). -/
def iterUpdate : ℕ → InclineScene → InclineScene
  | 0, sc => sc
  | n + 1, sc => ((iterUpdate n sc).update (1/60)).1

/-- A concrete scene one tick before the height-0.25 run completes:
`t = 27/60`, `s = 0.5 * A * t ^ 2 = 3969/8000 < L = 1/2`. -/
def c2SceneW : InclineScene := ⟨incline_start, 9/20, 3969/8000, 1/2⟩

/-- A concrete running controller on that scene, with `selected_height`
`HEIGHTS[0] = 0.25`. -/
def c2CtrlW : SimulationController :=
  ⟨1/4, true, false, c2SceneW, [], "Pause", none, ""⟩

theorem update_L (sc : InclineScene) (dt : ℚ) : (sc.update dt).1.L = sc.L := by
  by_cases h : sc.s < sc.L <;> simp [InclineScene.update, h]

theorem update_t_pos (sc : InclineScene) (dt : ℚ) (h : sc.s < sc.L) :
    (sc.update dt).1.t = sc.t + dt := by
  simp [InclineScene.update, h]

theorem update_s_pos (sc : InclineScene) (dt : ℚ) (h : sc.s < sc.L) :
    (sc.update dt).1.s =
      if 1/2 * A * (sc.t + dt) ^ 2 > sc.L then sc.L
      else 1/2 * A * (sc.t + dt) ^ 2 := by
  simp [InclineScene.update, h]

theorem update_neg (sc : InclineScene) (dt : ℚ) (h : ¬ sc.s < sc.L) :
    sc.update dt = (sc, (sc.s, A * sc.t)) := by
  simp [InclineScene.update, h]

theorem sceneInv_init : SceneInv InclineScene.init := by
  refine ⟨le_refl 0, le_refl 0, ?_, ?_, Or.inl ?_⟩ <;>
    norm_num [InclineScene.init, PLANE_LENGTHS]

theorem sceneInv_reset (sc : InclineScene) (h : SceneInv sc) :
    SceneInv sc.reset := by
  obtain ⟨-, -, -, hL, -⟩ := h
  refine ⟨le_refl 0, le_refl 0, le_of_lt hL, hL, Or.inl ?_⟩
  norm_num [InclineScene.reset, A, G, SIN_THETA]

theorem indexOf_HEIGHTS (i : Fin 5) :
    HEIGHTS.indexOf (HEIGHTS.getD i 0) = (i : ℕ) := by
  fin_cases i <;>
    norm_num [HEIGHTS, List.indexOf, List.findIdx, List.findIdx.go,
      cond_eq_if, beq_iff_eq]

theorem set_height_L (sc : InclineScene) (i : Fin 5) :
    (sc.set_height (HEIGHTS.getD i 0)).L = PLANE_LENGTHS.getD i 0 := by
  fin_cases i <;>
    norm_num [InclineScene.set_height, InclineScene.reset, HEIGHTS, PLANE_LENGTHS,
      List.indexOf, List.findIdx, List.findIdx.go, cond_eq_if, beq_iff_eq]

theorem set_height_t (sc : InclineScene) (h : ℚ) :
    (sc.set_height h).t = 0 := rfl

theorem set_height_s (sc : InclineScene) (h : ℚ) :
    (sc.set_height h).s = 0 := rfl

theorem PLANE_LENGTHS_pos (i : Fin 5) : 0 < PLANE_LENGTHS.getD i 0 := by
  fin_cases i <;> norm_num [PLANE_LENGTHS]

theorem PLANE_LENGTHS_le_max (i : Fin 5) : PLANE_LENGTHS.getD i 0 ≤ 5/2 := by
  fin_cases i <;> norm_num [PLANE_LENGTHS]

theorem sceneInv_set_height (sc : InclineScene) (i : Fin 5) :
    SceneInv (sc.set_height (HEIGHTS.getD i 0)) := by
  refine ⟨?_, ?_, ?_, ?_, Or.inl ?_⟩
  · rw [set_height_t]
  · rw [set_height_s]
  · rw [set_height_s, set_height_L]
    exact le_of_lt (PLANE_LENGTHS_pos i)
  · rw [set_height_L]
    exact PLANE_LENGTHS_pos i
  · rw [set_height_s, set_height_t]
    norm_num [A, G, SIN_THETA]

theorem A_pos : (0 : ℚ) < A := by norm_num [A, G, SIN_THETA]

theorem sceneInv_update (sc : InclineScene) (dt : ℚ) (hdt : 0 ≤ dt)
    (h : SceneInv sc) : SceneInv (sc.update dt).1 := by
  obtain ⟨ht, hs0, hsL, hL, hdisj⟩ := h
  by_cases hlt : sc.s < sc.L
  · have ht' : (sc.update dt).1.t = sc.t + dt := update_t_pos sc dt hlt
    have hs' := update_s_pos sc dt hlt
    have hLk := update_L sc dt
    by_cases hclamp : 1/2 * A * (sc.t + dt) ^ 2 > sc.L
    · rw [if_pos hclamp] at hs'
      exact ⟨by rw [ht']; linarith, by rw [hs']; linarith,
        by rw [hs', hLk], by rw [hLk]; exact hL,
        Or.inr ⟨by rw [hs', hLk], by rw [hLk, ht']; linarith⟩⟩
    · rw [if_neg hclamp] at hs'
      push_neg at hclamp
      have hA := A_pos
      have hnn : 0 ≤ 1/2 * A * (sc.t + dt) ^ 2 := by nlinarith [sq_nonneg (sc.t + dt)]
      exact ⟨by rw [ht']; linarith, by rw [hs']; linarith,
        by rw [hs', hLk]; linarith, by rw [hLk]; exact hL,
        Or.inl (by rw [hs', ht'])⟩
  · rw [(update_neg sc dt hlt ▸ rfl : (sc.update dt).1 = sc)]
    exact ⟨ht, hs0, hsL, hL, hdisj⟩

theorem update_mono (sc : InclineScene) (dt : ℚ) (hdt : 0 ≤ dt)
    (h : SceneInv sc) : sc.s ≤ (sc.update dt).1.s := by
  obtain ⟨ht, hs0, hsL, hL, hdisj⟩ := h
  by_cases hlt : sc.s < sc.L
  · have hs' := update_s_pos sc dt hlt
    have hkin : sc.s = 1/2 * A * sc.t ^ 2 := by
      rcases hdisj with hk | ⟨he, -⟩
      · exact hk
      · exact absurd he (ne_of_lt hlt)
    by_cases hclamp : 1/2 * A * (sc.t + dt) ^ 2 > sc.L
    · rw [hs', if_pos hclamp]
      exact hsL
    · rw [hs', if_neg hclamp, hkin]
      have hA := A_pos
      have key : sc.t ^ 2 ≤ (sc.t + dt) ^ 2 := by nlinarith
      nlinarith [key, hA]
  · rw [(update_neg sc dt hlt ▸ rfl : (sc.update dt).1 = sc)]

theorem reachable_sceneInv (sc : InclineScene) (h : ReachableScene sc) :
    SceneInv sc := by
  induction h with
  | init => exact sceneInv_init
  | tick sc _ ih => exact sceneInv_update sc (1/60) (by norm_num) ih
  | reset sc _ ih => exact sceneInv_reset sc ih
  | height sc i _ => exact sceneInv_set_height sc i

theorem update_neg_fst (sc : InclineScene) (dt : ℚ) (h : ¬ sc.s < sc.L) :
    (sc.update dt).1 = sc := by
  rw [update_neg sc dt h]

theorem iterUpdate_L (n : ℕ) (sc : InclineScene) :
    (iterUpdate n sc).L = sc.L := by
  induction n with
  | zero => rfl
  | succ n ih => rw [iterUpdate, update_L, ih]

theorem iterUpdate_inv (n : ℕ) (sc : InclineScene) (h : SceneInv sc) :
    SceneInv (iterUpdate n sc) := by
  induction n with
  | zero => exact h
  | succ n ih => exact sceneInv_update _ _ (by norm_num) ih

theorem iterUpdate_run (sc : InclineScene) (h : SceneInv sc) (n : ℕ) :
    (iterUpdate n sc).s = sc.L ∨
      ((iterUpdate n sc).t = sc.t + n * (1/60) ∧
        (iterUpdate n sc).s = 1/2 * A * (iterUpdate n sc).t ^ 2) := by
  induction n with
  | zero =>
      rcases h.2.2.2.2 with hk | ⟨he, -⟩
      · exact Or.inr ⟨by simp [iterUpdate], by simpa [iterUpdate] using hk⟩
      · exact Or.inl (by simpa [iterUpdate] using he)
  | succ n ih =>
      have hinv : SceneInv (iterUpdate n sc) := iterUpdate_inv n sc h
      have hLn : (iterUpdate n sc).L = sc.L := iterUpdate_L n sc
      by_cases hlt : (iterUpdate n sc).s < (iterUpdate n sc).L
      · rcases ih with hdone | ⟨ht, -⟩
        · exact absurd hlt (by rw [hdone, hLn]; exact lt_irrefl _)
        · have ht' := update_t_pos (iterUpdate n sc) (1/60) hlt
          have hs' := update_s_pos (iterUpdate n sc) (1/60) hlt
          by_cases hclamp :
              1/2 * A * ((iterUpdate n sc).t + 1/60) ^ 2 > (iterUpdate n sc).L
          · left
            rw [iterUpdate, hs', if_pos hclamp, hLn]
          · right
            constructor
            · rw [iterUpdate, ht', ht]
              push_cast
              ring
            · rw [iterUpdate, hs', if_neg hclamp, ht']
      · left
        have heq : (iterUpdate n sc).s = (iterUpdate n sc).L :=
          le_antisymm hinv.2.2.1 (not_lt.mp hlt)
        rw [iterUpdate, update_neg_fst _ _ hlt, heq, hLn]

/-- C1: for every reachable simulation state, the displacement satisfies
`0 <= s <= L`; a main-loop tick never decreases `s`; and once `s` equals
`L`, every subsequent update (of any tick size) leaves `s` equal to `L`
exactly. -/
theorem C1_displacement_clamped_monotone (sc : InclineScene)
    (h : ReachableScene sc) :
    (0 ≤ sc.s ∧ sc.s ≤ sc.L) ∧
      sc.s ≤ (sc.update (1/60)).1.s ∧
      (sc.s = sc.L → ∀ dt : ℚ, (sc.update dt).1.s = sc.L) := by
  have inv := reachable_sceneInv sc h
  refine ⟨⟨inv.2.1, inv.2.2.1⟩, update_mono sc (1/60) (by norm_num) inv, ?_⟩
  intro hs dt
  rw [update_neg_fst sc dt (by rw [hs]; exact lt_irrefl _), hs]

/-- Witness for C1, at the initial scene. -/
theorem C1_witness :
    (0 ≤ InclineScene.init.s ∧ InclineScene.init.s ≤ InclineScene.init.L) ∧
      InclineScene.init.s ≤ (InclineScene.init.update (1/60)).1.s ∧
      (InclineScene.init.s = InclineScene.init.L →
        ∀ dt : ℚ, (InclineScene.init.update dt).1.s = InclineScene.init.L) :=
  C1_displacement_clamped_monotone InclineScene.init ReachableScene.init

/-- C3: the preset tables are index-aligned with
`PLANE_LENGTHS[i] = HEIGHTS[i] / sin 30 = 2 * HEIGHTS[i]`. -/
theorem C3_plane_length_table (i : Fin 5) :
    PLANE_LENGTHS.getD i 0 = HEIGHTS.getD i 0 / SIN_THETA ∧
      PLANE_LENGTHS.getD i 0 = 2 * HEIGHTS.getD i 0 := by
  fin_cases i <;> constructor <;> norm_num [PLANE_LENGTHS, HEIGHTS, SIN_THETA]

/-- C4: for every preset height, starting a run from the reset state with
tick size `dt = 1/60` and acceleration `A`, the completion condition
`s >= L` is reached after finitely many ticks. -/
theorem C4_run_completes (i : Fin 5) :
    ∃ n : ℕ, PLANE_LENGTHS.getD i 0 ≤
      (iterUpdate n (InclineScene.init.set_height (HEIGHTS.getD i 0))).s := by
  refine ⟨61, ?_⟩
  have hinv : SceneInv (InclineScene.init.set_height (HEIGHTS.getD i 0)) :=
    sceneInv_set_height _ i
  have hL := set_height_L InclineScene.init i
  have ht0 := set_height_t InclineScene.init (HEIGHTS.getD i 0)
  rcases iterUpdate_run _ hinv 61 with hdone | ⟨ht, hs⟩
  · rw [hdone, hL]
  · rw [ht0] at ht
    have hsval :
        (iterUpdate 61 (InclineScene.init.set_height (HEIGHTS.getD i 0))).s =
          182329/72000 := by
      rw [hs, ht]
      norm_num [A, G, SIN_THETA]
    have hle := PLANE_LENGTHS_le_max i
    rw [hsval]
    linarith

/-- C5: clicking height-preset button `i`, in any controller state, selects
that preset (height and matching plane length), zeroes elapsed time and
displacement, clears the sample trace, the fit results and the match
verdict, and returns the controller to idle with the start button labelled
"Start". -/
theorem C5_select_height_resets (c : SimulationController) (i : Fin 5) :
    ((c.selectHeight i).selected_height = HEIGHTS.getD i 0 ∧
      (c.selectHeight i).scene.L = PLANE_LENGTHS.getD i 0 ∧
      (c.selectHeight i).scene.t = 0 ∧
      (c.selectHeight i).scene.s = 0) ∧
      (c.selectHeight i).points = [] ∧
      (c.selectHeight i).fit_results = none ∧
      (c.selectHeight i).match_status = "" ∧
      (c.selectHeight i).running = false ∧
      (c.selectHeight i).paused = false ∧
      (c.selectHeight i).start_text = "Start" := by
  refine ⟨⟨rfl, ?_, rfl, rfl⟩, rfl, rfl, rfl, rfl, rfl, rfl⟩
  exact set_height_L c.scene i

/-- C6: clicking the reset button, from any prior controller state, returns
the controller to idle with label "Start", clears the fit results, the
match verdict and the sample trace, zeroes the scene's elapsed time and
displacement, and leaves the selected height (and plane length)
unchanged. -/
theorem C6_reset_button (c : SimulationController) :
    (c.resetClick.running = false ∧
      c.resetClick.paused = false ∧
      c.resetClick.start_text = "Start") ∧
      c.resetClick.points = [] ∧
      c.resetClick.fit_results = none ∧
      c.resetClick.match_status = "" ∧
      c.resetClick.scene.t = 0 ∧
      c.resetClick.scene.s = 0 ∧
      c.resetClick.scene.L = c.scene.L ∧
      c.resetClick.selected_height = c.selected_height :=
  ⟨⟨rfl, rfl, rfl⟩, rfl, rfl, rfl, rfl, rfl, rfl, rfl⟩

/-- C7: a controller tick while not running, or paused, leaves the scene's
elapsed time and displacement unchanged. -/
theorem C7_no_advance_unless_running (powFit : ℚ × ℚ) (dt : ℚ)
    (c : SimulationController)
    (h : c.running = false ∨ c.paused = true) :
    (SimulationController.update powFit dt c).scene.t = c.scene.t ∧
      (SimulationController.update powFit dt c).scene.s = c.scene.s := by
  have hcond : (c.running && !c.paused) = false := by
    rcases h with h | h <;> simp [h]
  constructor <;> simp [SimulationController.update, hcond]

/-- Witness for C7, at the (idle) initial controller. -/
theorem C7_witness :
    (SimulationController.init.running = false ∨
        SimulationController.init.paused = true) ∧
      ((SimulationController.update (1, 1) (1/60)
            SimulationController.init).scene.t =
          SimulationController.init.scene.t ∧
        (SimulationController.update (1, 1) (1/60)
            SimulationController.init).scene.s =
          SimulationController.init.scene.s) :=
  ⟨Or.inl rfl,
    C7_no_advance_unless_running (1, 1) (1/60) SimulationController.init
      (Or.inl rfl)⟩

/-- C9: when the displacement has already reached the plane length,
`InclineScene.update` changes no field of the scene (the whole pair it
returns is `(unchanged scene, (s, A * t))`), and a start-button press never
touches the scene, so pressing start after a completed run does not reset
the simulation state. -/
theorem C9_update_noop_when_done (sc : InclineScene) (dt : ℚ)
    (h : sc.L ≤ sc.s) :
    sc.update dt = (sc, (sc.s, A * sc.t)) ∧
      ∀ c : SimulationController, c.startPause.scene = c.scene := by
  refine ⟨update_neg sc dt (not_lt.mpr h), ?_⟩
  intro c
  rw [SimulationController.startPause]
  split <;> rfl

/-- Witness for C9, at a completed scene with `s = L = 1/2`. -/
theorem C9_witness :
    (InclineScene.mk incline_start 1 (1/2) (1/2)).L ≤
        (InclineScene.mk incline_start 1 (1/2) (1/2)).s ∧
      ((InclineScene.mk incline_start 1 (1/2) (1/2)).update (1/60) =
          (InclineScene.mk incline_start 1 (1/2) (1/2),
            ((InclineScene.mk incline_start 1 (1/2) (1/2)).s,
              A * (InclineScene.mk incline_start 1 (1/2) (1/2)).t)) ∧
        ∀ c : SimulationController, c.startPause.scene = c.scene) :=
  ⟨le_refl _,
    C9_update_noop_when_done (InclineScene.mk incline_start 1 (1/2) (1/2))
      (1/60) (le_refl _)⟩

/-- C10: the measured-average-speed computation at run completion is
guarded: at elapsed time 0 the measured speed is defined as 0, and the
division `L / t` is only taken when `t > 0`. -/
theorem C10_measured_speed_guarded (L t : ℚ) :
    measuredSpeed L 0 = 0 ∧ (0 < t → measuredSpeed L t = L / t) := by
  constructor
  · rw [measuredSpeed, if_neg (lt_irrefl 0)]
  · intro ht
    rw [measuredSpeed, if_pos ht]

/-- Witness for C10, at `L = 3`, `t = 2`. -/
theorem C10_witness :
    (0 : ℚ) < 2 ∧ measuredSpeed 3 0 = 0 ∧ measuredSpeed 3 2 = 3 / 2 :=
  ⟨by norm_num, (C10_measured_speed_guarded 3 2).1,
    (C10_measured_speed_guarded 3 2).2 (by norm_num)⟩

theorem controller_update_done (powFit : ℚ × ℚ) (dt : ℚ)
    (c : SimulationController) (hrun : c.running = true)
    (hpause : c.paused = false)
    (hdone : ((c.scene.update dt).1).L ≤ (c.scene.update dt).2.1) :
    SimulationController.update powFit dt c =
      { c with scene := (c.scene.update dt).1
               points := c.points ++ [(c.scene.update dt).2]
               running := false
               start_text := "Start"
               match_status :=
                 if |measuredSpeed ((c.scene.update dt).1).L
                       ((c.scene.update dt).1).t -
                     EXP_AVG_SPEEDS.getD (HEIGHTS.indexOf c.selected_height) 0| ≤
                     EXP_STD_DEVS.getD (HEIGHTS.indexOf c.selected_height) 0
                 then "Success" else "Deviation"
               fit_results :=
                 some { linear := linregress HEIGHTS EXP_AVG_SPEEDS
                        power := powFit } } := by
  have hcond : (c.running && !c.paused) = true := by simp [hrun, hpause]
  simp only [SimulationController.update, hcond, if_true, ge_iff_le,
    if_pos hdone]

/-- C2: when a tick completes the run (the updated displacement reaches the
plane length), the measured average speed is the plane length divided by the
elapsed time, and the stored verdict is "Success" exactly when that speed is
within one experimental standard deviation of the experimental mean for the
selected height, and "Deviation" exactly otherwise. -/
theorem C2_verdict_on_completion (powFit : ℚ × ℚ) (dt : ℚ)
    (c : SimulationController) (hrun : c.running = true)
    (hpause : c.paused = false)
    (hdone : ((c.scene.update dt).1).L ≤ (c.scene.update dt).2.1)
    (ht : 0 < ((c.scene.update dt).1).t) :
    measuredSpeed ((c.scene.update dt).1).L ((c.scene.update dt).1).t =
        ((c.scene.update dt).1).L / ((c.scene.update dt).1).t ∧
      ((SimulationController.update powFit dt c).match_status = "Success" ↔
        |((c.scene.update dt).1).L / ((c.scene.update dt).1).t -
            EXP_AVG_SPEEDS.getD (HEIGHTS.indexOf c.selected_height) 0| ≤
          EXP_STD_DEVS.getD (HEIGHTS.indexOf c.selected_height) 0) ∧
      ((SimulationController.update powFit dt c).match_status = "Deviation" ↔
        ¬ |((c.scene.update dt).1).L / ((c.scene.update dt).1).t -
              EXP_AVG_SPEEDS.getD (HEIGHTS.indexOf c.selected_height) 0| ≤
            EXP_STD_DEVS.getD (HEIGHTS.indexOf c.selected_height) 0) := by
  have hms : measuredSpeed ((c.scene.update dt).1).L ((c.scene.update dt).1).t =
      ((c.scene.update dt).1).L / ((c.scene.update dt).1).t := by
    rw [measuredSpeed, if_pos ht]
  have hct := controller_update_done powFit dt c hrun hpause hdone
  refine ⟨hms, ?_, ?_⟩ <;> rw [hct] <;>
    by_cases hcmp : |((c.scene.update dt).1).L / ((c.scene.update dt).1).t -
        EXP_AVG_SPEEDS.getD (HEIGHTS.indexOf c.selected_height) 0| ≤
        EXP_STD_DEVS.getD (HEIGHTS.indexOf c.selected_height) 0 <;>
      simp [hms, hcmp]

/-- Witness for C2: on a tick completing the `h = 0.25` run the elapsed
time is `28/60`, the measured speed `15/14` misses the experimental mean
`1.11` by more than `0.03`, and the verdict is "Deviation". -/
theorem C2_witness :
    c2CtrlW.running = true ∧ c2CtrlW.paused = false ∧
      ((c2CtrlW.scene.update (1/60)).1).L ≤ (c2CtrlW.scene.update (1/60)).2.1 ∧
      0 < ((c2CtrlW.scene.update (1/60)).1).t ∧
      (measuredSpeed ((c2CtrlW.scene.update (1/60)).1).L
          ((c2CtrlW.scene.update (1/60)).1).t =
        ((c2CtrlW.scene.update (1/60)).1).L /
          ((c2CtrlW.scene.update (1/60)).1).t ∧
      ((SimulationController.update (1, 1) (1/60) c2CtrlW).match_status =
          "Success" ↔
        |((c2CtrlW.scene.update (1/60)).1).L /
            ((c2CtrlW.scene.update (1/60)).1).t -
            EXP_AVG_SPEEDS.getD (HEIGHTS.indexOf c2CtrlW.selected_height) 0| ≤
          EXP_STD_DEVS.getD (HEIGHTS.indexOf c2CtrlW.selected_height) 0) ∧
      ((SimulationController.update (1, 1) (1/60) c2CtrlW).match_status =
          "Deviation" ↔
        ¬ |((c2CtrlW.scene.update (1/60)).1).L /
              ((c2CtrlW.scene.update (1/60)).1).t -
              EXP_AVG_SPEEDS.getD (HEIGHTS.indexOf c2CtrlW.selected_height) 0| ≤
            EXP_STD_DEVS.getD (HEIGHTS.indexOf c2CtrlW.selected_height) 0)) :=
  ⟨rfl, rfl,
    by norm_num [c2CtrlW, c2SceneW, InclineScene.update, A, G, SIN_THETA,
      L_PHYSICAL_MAX, L_PIXEL_MAX],
    by norm_num [c2CtrlW, c2SceneW, InclineScene.update, A, G, SIN_THETA,
      L_PHYSICAL_MAX, L_PIXEL_MAX],
    C2_verdict_on_completion (1, 1) (1/60) c2CtrlW rfl rfl
      (by norm_num [c2CtrlW, c2SceneW, InclineScene.update, A, G, SIN_THETA,
        L_PHYSICAL_MAX, L_PIXEL_MAX])
      (by norm_num [c2CtrlW, c2SceneW, InclineScene.update, A, G, SIN_THETA,
        L_PHYSICAL_MAX, L_PIXEL_MAX])⟩

/-- C8: `GraphPlot.draw` samples both fitted curves at 100 evenly spaced x
values over `[0, max_s]` (first sample 0, last sample `max_s`, constant
step `max_s / 99`), evaluating each fit at the transformed input
`h = x / 2`: the i-th overlay segment of the linear fit joins the plot
points of `slope * (x / 2) + intercept` at consecutive samples, the i-th
overlay segment of the power fit joins the plot points of
`A_fit * (x / 2) ^ p`, and a scatter sample is drawn iff it is collected
and its displacement is at most `max_s`. -/
theorem C8_graph_overlay_sampling :
    (x_vals 0 = 0 ∧ x_vals ⟨99, by norm_num⟩ = max_s ∧
      ∀ i : Fin 99, x_vals i.succ - x_vals i.castSucc = max_s / 99) ∧
    (∀ slope intercept : ℚ, ∀ i : Fin 99,
      linearSegment slope intercept i =
        ((plotX (x_vals i.castSucc),
          plotY (slope * (x_vals i.castSucc / 2) + intercept)),
         (plotX (x_vals i.succ),
          plotY (slope * (x_vals i.succ / 2) + intercept)))) ∧
    (∀ A_fit p : ℝ, ∀ i : Fin 99,
      powerSegment A_fit p i =
        (((plotX (x_vals i.castSucc) : ℝ),
          plotYR (A_fit * (((x_vals i.castSucc : ℚ) : ℝ) / 2) ^ p)),
         ((plotX (x_vals i.succ) : ℝ),
          plotYR (A_fit * (((x_vals i.succ : ℚ) : ℝ) / 2) ^ p)))) ∧
    (∀ points : List (ℚ × ℚ), ∀ s v : ℚ,
      (s, v) ∈ keptSamples points ↔ (s, v) ∈ points ∧ s ≤ max_s) := by
  refine ⟨⟨?_, ?_, ?_⟩, ?_, ?_, ?_⟩
  · simp [x_vals]
  · rw [x_vals]
    norm_num
    ring
  · intro i
    rw [x_vals, x_vals, Fin.val_succ, Fin.coe_castSucc]
    push_cast
    ring
  · intro slope intercept i
    rfl
  · intro A_fit p i
    rfl
  · intro points s v
    simp [keptSamples, List.mem_filter, not_lt]
